import Mathlib

/-!
# Verification of the kage remote-access gateway core

Shallow embedding, in Lean 4, of the core components of the repository:
the streaming/download gateway (`src/server/db/schema.ts`), the token
store (`SQLiteStorage` in the storage layer), the share-reference
resolver and the metadata fetch service and session-capture controller
(`src/server/services/terabox.ts`).  Each definition is translated from
the TypeScript source; theorems at the end of the file settle the
specification claims against these definitions.
-/

set_option autoImplicit false

namespace Kage

/-! ## HTTP response header maps

Express' `res.setHeader(key, value)` stores one value per
case-insensitive header name, replacing any previous value.  We model
the local response's header state as a function from lower-case header
names to optional values. -/

/-! ### Kernel-computable string primitives

The TypeScript code uses platform string operations
(`toLowerCase`, `startsWith`, `endsWith`, `split`, UTF-8 encoding).
Lean's built-in counterparts are defined by well-founded recursion and
do not reduce inside the kernel, so the model re-implements them
structurally over the character list; each is the exact ASCII/Unicode
behaviour the program relies on. -/

/-- Lower-case one character (ASCII, all the program compares). -/
def lowerChar (c : Char) : Char :=
  if 'A' ≤ c ∧ c ≤ 'Z' then Char.ofNat (c.toNat + 32) else c

/-- JavaScript `toLowerCase()` on the ASCII names the program handles. -/
def jsToLower (s : String) : String := String.mk (s.data.map lowerChar)

/-- Prefix test on character lists. -/
def isPrefixL : List Char → List Char → Bool
  | [], _ => true
  | _ :: _, [] => false
  | a :: as, b :: bs => a == b && isPrefixL as bs

/-- JavaScript `startsWith`. -/
def jsStartsWith (s pre : String) : Bool := isPrefixL pre.data s.data

/-- JavaScript-style suffix test (the `$`-anchored regex tests). -/
def jsEndsWith (s post : String) : Bool :=
  isPrefixL post.data.reverse s.data.reverse

/-- Split `l` at every leftmost, non-overlapping occurrence of the
non-empty separator `sep`; `acc` is the current piece, reversed, and
`fuel` bounds the recursion (callers pass `l.length + 1`, enough since
every step consumes at least one character). -/
def splitOnFuel (sep : List Char) : Nat → List Char → List Char → List (List Char)
  | 0, l, acc => [acc.reverse ++ l]
  | _ + 1, [], acc => [acc.reverse]
  | fuel + 1, c :: rest, acc =>
    if isPrefixL sep (c :: rest) then
      acc.reverse :: splitOnFuel sep fuel ((c :: rest).drop sep.length) []
    else splitOnFuel sep fuel rest (c :: acc)

/-- `String.split(sep)` / Lean's `String.splitOn` semantics. -/
def jsSplitOn (s sep : String) : List String :=
  if sep = "" then [s]
  else (splitOnFuel sep.data (s.data.length + 1) s.data []).map String.mk

/-- JavaScript falsiness of a nullable string: `null`/`undefined` and
the empty string `""`. -/
def jsFalsy : Option String → Bool
  | none => true
  | some s => s = ""

/-! ### Response header maps

Express' `res.setHeader(key, value)` stores one value per
case-insensitive header name, replacing any previous value.  We model
the local response's header state as a function from lower-case header
names to optional values. -/

/-- Header state of the local HTTP response: lookup by lower-case name. -/
def Headers : Type := String → Option String

/-- `res.setHeader(key, value)`: replaces the value stored under the
case-insensitive name `k`. -/
def setHeader (hs : Headers) (k v : String) : Headers :=
  fun q => if q = jsToLower k then some v else hs q

/-- Empty header state (before the handler sets anything). -/
def noHeaders : Headers := fun _ => none

/-- Look up a header value in the upstream response, which is a finite
list of (name, value) pairs as enumerated by `response.headers.forEach`;
first match wins, names compared case-insensitively. -/
def lookupHeader (l : List (String × String)) (k : String) : Option String :=
  (l.find? (fun p => jsToLower p.1 == k)).map (·.2)

theorem setHeader_same (hs : Headers) (k v : String) :
    setHeader hs k v (jsToLower k) = some v := by
  simp [setHeader]

theorem setHeader_other (hs : Headers) (k v : String) (q : String)
    (h : q ≠ jsToLower k) : setHeader hs k v q = hs q := by
  simp [setHeader, h]

/-! ## Streaming gateway (`GET /api/stream/:fileId`)

Translated from `src/server/db/schema.ts`, the part of the handler that
runs once the upstream `fetch` of the direct link has returned: failure
classification of non-success upstream statuses, the status-code rewrite
rule for the local response, and header forwarding. -/

/-- `response.ok` of the Fetch API: status in the range 200–299. -/
def responseOk (status : Nat) : Bool := 200 ≤ status && status < 300

/-- Headers never forwarded from upstream (the `skipHeaders` set). -/
def skipHeaders : List String :=
  ["transfer-encoding", "connection", "keep-alive", "content-encoding",
   "content-disposition"]

/-- `isInitialRange` (`range === "bytes=0-" || !range`): the inbound
request asked for `bytes=0-` or its `Range` header is falsy — absent
(`undefined`) or present with an empty value (`""`). -/
def isInitialRange (range : Option String) : Bool :=
  range == some "bytes=0-" || jsFalsy range

/-- Result of the stream handler, as seen by the local client:
either a JSON failure (local status = upstream status, with the
`expired` flag and message from the handler), or a streamed response
with a local status code and response headers. -/
inductive StreamResult where
  | failure (status : Nat) (expired : Bool) (message : String)
  | streamed (status : Nat) (headers : Headers)

/-- One step of the upstream-header forwarding loop
(`response.headers.forEach(...)` in the stream handler): skip the bad
headers, skip `Content-Range` when answering the initial range,
otherwise `res.setHeader(key, value)`. -/
def forwardStep (isInitial : Bool) (hs : Headers) (kv : String × String) : Headers :=
  let key := jsToLower kv.1
  if skipHeaders.contains key then hs
  else if isInitial && key == "content-range" then hs
  else setHeader hs kv.1 kv.2

/-- The stream handler from the upstream response on: classification of
non-success statuses, the status-code rewrite rule, header forwarding,
and the fixed streaming/CORS headers.  `range` is the inbound `Range`
header, `upStatus`/`upHeaders` the upstream response. -/
def streamResponse (range : Option String) (upStatus : Nat)
    (upHeaders : List (String × String)) : StreamResult :=
  if !responseOk upStatus && upStatus != 206 then
    let expired := upStatus == 401 || upStatus == 403
    .failure upStatus expired
      (if expired then
        "The download link has expired. Run Auth Fetch again to get fresh links."
      else "Could not stream file.")
  else
    let isInitial := isInitialRange range
    let statusCode := if isInitial then 200 else 206
    let forwarded := upHeaders.foldl (forwardStep isInitial) noHeaders
    let hs := setHeader (setHeader (setHeader forwarded
      "Content-Disposition" "inline") "Accept-Ranges" "bytes") "Connection" "close"
    let hs := setHeader (setHeader (setHeader hs
      "Access-Control-Allow-Origin" "*") "Access-Control-Allow-Headers" "Range")
      "Access-Control-Expose-Headers" "Content-Range, Content-Length, Accept-Ranges"
    .streamed statusCode hs

/-! ## `encodeURIComponent` and the download handler
(`GET /api/download/:fileId`)

Translated from `src/server/db/schema.ts`.  `encodeURIComponent` is the
ECMAScript function: ASCII alphanumerics and `- _ . ! ~ * ' ( )` are
kept, every other character is replaced by the percent-encoding of its
UTF-8 bytes. -/

/-- Characters `encodeURIComponent` leaves unescaped. -/
def uriUnreserved (c : Char) : Bool :=
  c.isAlphanum || c == '-' || c == '_' || c == '.' || c == '!' ||
  c == '~' || c == '*' || c == '\x27' || c == '(' || c == ')'

/-- Upper-case hexadecimal digit for `n < 16`. -/
def hexDigitChar (n : Nat) : Char :=
  "0123456789ABCDEF".data.getD n '0'

/-- `%XX` encoding of one byte. -/
def percentByte (b : Nat) : String :=
  "%" ++ String.mk [hexDigitChar (b / 16), hexDigitChar (b % 16)]

/-- UTF-8 encoding of one code point. -/
def utf8EncodeCP (n : Nat) : List Nat :=
  if n < 128 then [n]
  else if n < 2048 then [192 + n / 64, 128 + n % 64]
  else if n < 65536 then [224 + n / 4096, 128 + (n / 64) % 64, 128 + n % 64]
  else [240 + n / 262144, 128 + (n / 4096) % 64, 128 + (n / 64) % 64, 128 + n % 64]

/-- UTF-8 bytes of a single character. -/
def utf8Bytes (c : Char) : List Nat := utf8EncodeCP c.toNat

/-- ECMAScript `encodeURIComponent`. -/
def encodeURIComponent (s : String) : String :=
  s.data.foldl
    (fun acc c =>
      acc ++ (if uriUnreserved c then String.singleton c
              else String.join ((utf8Bytes c).map percentByte)))
    ""

/-- Result of the download handler once the direct link has been
fetched: a JSON failure or a streamed body with response headers. -/
inductive DownloadResult where
  | failure (status : Nat) (expired : Bool) (message : String)
  | streamed (headers : Headers)

/-- The download handler from the upstream response on: failure
classification, then the `Content-Disposition` / `Content-Type` /
`Content-Length` headers set before streaming.  `fileName` is
`file.name`; `contentType` and `contentLength` are the upstream's
`Content-Type` and `Content-Length` headers. -/
def downloadResponse (fileName : String) (upStatus : Nat)
    (contentType : Option String) (contentLength : Option String) : DownloadResult :=
  if !responseOk upStatus then
    let expired := upStatus == 401 || upStatus == 403
    .failure upStatus expired
      (if expired then "The download link has expired. Run Auth Fetch again."
       else "Could not download file.")
  else
    let encodedFilename := encodeURIComponent fileName
    let hs := setHeader noHeaders "Content-Disposition"
      ("attachment; filename=\"" ++ encodedFilename ++ "\"; filename*=UTF-8\x27\x27"
        ++ encodedFilename)
    let hs := setHeader hs "Content-Type" (contentType.getD "application/octet-stream")
    let hs := match contentLength with
      | some cl => setHeader hs "Content-Length" cl
      | none => hs
    .streamed hs

/-! ## Token store (`SQLiteStorage.saveAuthToken` /
`invalidateAuthTokens` / `getActiveAuthToken`)

The `authTokens` table is modelled as the list of its rows, in insertion
order.  `invalidateAuthTokens` is the SQL
`UPDATE auth_tokens SET status = 'expired' WHERE status = 'active'`;
`saveAuthToken` runs it and then inserts the new row with
`status = 'active'`. -/

/-- One row of the `authTokens` table. -/
structure AuthTokenRow where
  id : String
  provider : String
  jsToken : String
  /-- `JSON.stringify(authData.cookies)`, kept opaque. -/
  cookies : String
  status : String
  capturedAt : Nat
  expiresAt : Option Nat
  lastUsedAt : Nat
deriving DecidableEq, Repr

/-- The captured credential bundle passed to `saveAuthToken`
(`TeraboxAuthData`, with the cookie array already serialized). -/
structure AuthDataRec where
  provider : String
  jsToken : String
  cookiesJson : String
  capturedAt : Nat
deriving DecidableEq, Repr

/-- `UPDATE auth_tokens SET status = 'expired' WHERE status = 'active'`. -/
def invalidateAuthTokens (rows : List AuthTokenRow) : List AuthTokenRow :=
  rows.map fun t => if t.status = "active" then { t with status := "expired" } else t

/-- `saveAuthToken`: demote all active tokens, then insert the new one
as active.  `id` is the fresh `randomUUID()`, `now` the insertion
time. -/
def saveAuthToken (rows : List AuthTokenRow) (id : String) (a : AuthDataRec)
    (now : Nat) : List AuthTokenRow :=
  invalidateAuthTokens rows ++
    [{ id := id, provider := a.provider, jsToken := a.jsToken,
       cookies := a.cookiesJson, status := "active",
       capturedAt := a.capturedAt, expiresAt := none, lastUsedAt := now }]

/-- `getActiveAuthToken` reads the rows with `status = 'active'`. -/
def activeRows (rows : List AuthTokenRow) : List AuthTokenRow :=
  rows.filter (fun t => t.status = "active")

/-! ## Session capture controller (`startAuthSession` and friends)

The controller's process-wide state is `activeAuthSession` together
with the browser handle.  One invocation of `startAuthSession` is
modelled as: the synchronous prefix (`startAuthSessionM`, which checks
the idempotence guard and, if it proceeds, installs the `pending`
session and launches the browser), followed by asynchronous steps that
may interleave while `page.goto` is pending — the request observer
(`observerStep`), the completion of the `goto` and the final
`waiting_for_login` assignment (`gotoCompleteStep`), and the
browser-closed callback (`browserClosedStep`). -/

inductive SessionStatus where
  | pending
  | waiting_for_login
  | capturing
  | success
  | failed
deriving DecidableEq, Repr

/-- `AuthSessionState` from `terabox.ts`; `hasAuthData` records whether
the optional `authData` field is present. -/
structure AuthSessionSt where
  sessionId : String
  status : SessionStatus
  message : String
  hasAuthData : Bool
deriving DecidableEq, Repr

/-- The controller's module-level mutable state: `activeAuthSession`,
the per-invocation single-capture latch `captured`, and whether
`activeBrowserContext` is non-null. -/
structure CaptureState where
  activeAuthSession : Option AuthSessionSt
  captured : Bool
  browserOpen : Bool
deriving DecidableEq, Repr

/-- What `startAuthSession` hands back: the already-running session
(guard branch) or the freshly created one. -/
inductive StartOutcome where
  | existing (s : AuthSessionSt)
  | launched (s : AuthSessionSt)
deriving DecidableEq, Repr

/-- Synchronous prefix of `startAuthSession`: if a session is already
`waiting_for_login`, return it unchanged and launch nothing; otherwise
install a fresh `pending` session (with the per-invocation latch reset)
and launch the persistent browser context.  The returned `Bool` records
whether a browser was launched. -/
def startAuthSessionM (st : CaptureState) (newId : String) :
    CaptureState × StartOutcome × Bool :=
  match st.activeAuthSession with
  | some s =>
    if s.status = .waiting_for_login then (st, .existing s, false)
    else
      let fresh : AuthSessionSt :=
        ⟨newId, .pending, "Starting authentication session with Chrome profile...", false⟩
      (⟨some fresh, false, true⟩, .launched fresh, true)
  | none =>
    let fresh : AuthSessionSt :=
      ⟨newId, .pending, "Starting authentication session with Chrome profile...", false⟩
    (⟨some fresh, false, true⟩, .launched fresh, true)

/-- The `page.on("request", ...)` observer for the invocation whose
session id is `sid`: bail out if the latch is set, if the request URL
does not contain `jsToken=`, or if the token is shorter than 20
characters; otherwise record the captured `success` session (with
`authData`) and set the latch. -/
def observerStep (st : CaptureState) (sid : String) (urlHasJsToken : Bool)
    (jsTokenLen : Nat) : CaptureState :=
  if st.captured then st
  else if !urlHasJsToken then st
  else if jsTokenLen < 20 then st
  else
    { st with
      activeAuthSession :=
        some ⟨sid, .success, "Authentication captured successfully", true⟩,
      captured := true }

/-- The code run after `await page.goto(...)` resolves in the
invocation whose session id is `sid`: it unconditionally assigns a
fresh `waiting_for_login` session (with no `authData`). -/
def gotoCompleteStep (st : CaptureState) (sid : String) : CaptureState :=
  { st with
    activeAuthSession :=
      some ⟨sid, .waiting_for_login,
        "Browser opened with your Chrome profile. Navigate to any share link to capture auth.",
        false⟩ }

/-- Whether `activeAuthSession?.status === "success"`. -/
def sessionIsSuccess (s : Option AuthSessionSt) : Bool :=
  match s with
  | some s => s.status == .success
  | none => false

/-- The `activeBrowserContext.on("close", ...)` callback of the
invocation whose session id is `sid`. -/
def browserClosedStep (st : CaptureState) (sid : String) : CaptureState :=
  let st :=
    if !st.captured && !sessionIsSuccess st.activeAuthSession then
      { st with
        activeAuthSession :=
          some ⟨sid, .failed, "Browser closed before authentication was captured", false⟩ }
    else st
  { st with browserOpen := false }

/-! ## Share reference resolver (`extractSurl`)

`extractSurl` relies on the platform's WHATWG `URL` class.  `parseURL`
models that parser on the `scheme://host/path?query#fragment` shapes the
program handles: it splits off the scheme at the first `://`, drops the
fragment, separates the query at the first `?`, and takes the authority
up to the first `/`; a missing scheme or empty host fails (`new URL`
throws, which `extractSurl` catches).  Percent-decoding of query values
is not modelled. -/

/-- Parsed form of a URL: scheme, host, `pathname` (always starting
with `/`), and the raw query string (without the `?`). -/
structure ParsedURL where
  scheme : String
  host : String
  pathname : String
  query : String
deriving DecidableEq, Repr

/-- The WHATWG `new URL(...)` parser, restricted to
`scheme://authority/path?query#fragment` inputs; `none` models the
thrown `TypeError`. -/
def parseURL (s : String) : Option ParsedURL :=
  match jsSplitOn s "://" with
  | scheme :: rest@(_ :: _) =>
    if scheme = "" || !scheme.data.all (fun c => c.isAlphanum || c == '+' ||
        c == '-' || c == '.') || !(scheme.data.headD ' ').isAlpha then none
    else
      let restStr := String.intercalate "://" rest
      let noFrag := (jsSplitOn restStr "#").headD ""
      let qparts := jsSplitOn noFrag "?"
      let beforeQ := qparts.headD ""
      let query := String.intercalate "?" qparts.tail
      match jsSplitOn beforeQ "/" with
      | [] => none
      | host :: segs =>
        if host = "" then none
        else some ⟨scheme, host, "/" ++ String.intercalate "/" segs, query⟩
  | _ => none

/-- First `key=value` binding of `key` in a query string
(`URLSearchParams.get`), without percent-decoding. -/
def searchParamsGet (query : String) (key : String) : Option String :=
  ((jsSplitOn query "&").filter (· ≠ "")).findSome? fun piece =>
    match jsSplitOn piece "=" with
    | [] => none
    | k :: rest => if k = key then some (String.intercalate "=" rest) else none

/-- Character class of the share-token pattern `[A-Za-z0-9_-]`. -/
def isSurlChar (c : Char) : Bool :=
  c.isAlphanum || c == '_' || c == '-'

/-- Attempted match of `\/s\/([A-Za-z0-9_-]+)` anchored at the current
position: `/s/` followed by at least one token character, capturing the
maximal run. -/
def shareTokenAt : List Char → Option String
  | '/' :: 's' :: '/' :: rest2 =>
    let tok := rest2.takeWhile isSurlChar
    if tok.isEmpty then none else some (String.mk tok)
  | _ => none

/-- First match of the regular expression `\/s\/([A-Za-z0-9_-]+)`,
returning the captured group: scan left to right, trying an anchored
match at each position. -/
def matchShareSeg : List Char → Option String
  | [] => none
  | c :: rest =>
    match shareTokenAt (c :: rest) with
    | some tok => some tok
    | none => matchShareSeg rest

/-- `surl.startsWith("1") ? surl.slice(1) : surl`. -/
def stripLeadingOne (s : String) : String :=
  if jsStartsWith s "1" then String.mk (s.data.drop 1) else s

/-- `extractSurl` from `terabox.ts`: parse the URL (`null` on a parse
error), prefer the `surl` query parameter, fall back to the `/s/<token>`
path segment, reject a still-falsy value, and strip a leading `"1"`. -/
def extractSurlM (url : String) : Option String :=
  match parseURL url with
  | none => none
  | some u =>
    let surl := searchParamsGet u.query "surl"
    let surl :=
      if jsFalsy surl then
        match matchShareSeg u.pathname.data with
        | some m => some m
        | none => surl
      else surl
    if jsFalsy surl then none
    else some (stripLeadingOne (surl.getD ""))

/-! ## Metadata fetch service (authenticated strategy)

`fetchList` issues the remote listing call and parses the body as JSON,
throwing `"Expected JSON, got HTML (verify/auth issue)"` when parsing
fails; `fetchAuthenticatedMetadata` resolves the share reference, runs
the root listing, unwraps a single top-level directory by one further
listing call, and maps the entries.  The network is abstracted as a
function from the optional `dir` parameter of the listing request to the
body the remote host answers with; alongside the result we record the
list of listing calls made (their `dir` parameters, in order). -/

/-- One entry of the remote listing (`rootData.list` element), with the
fields the service reads.  `isdir` is the remote's string-typed flag. -/
structure RemoteEntry where
  server_filename : String
  path : String
  isdir : String
  size : Nat
  fs_id : String
  md5 : Option String
  dlink : Option String
  thumbs : Option (List (String × String))
deriving DecidableEq, Repr, Inhabited

/-- A remote response body: JSON with `errno` and an optional `list`,
or a non-JSON body (the HTML login page of a stale session). -/
inductive RemoteBody where
  | json (errno : Int) (list : Option (List RemoteEntry))
  | notJson (raw : String)

/-- Parsed shape of a listing response. -/
structure ListResponse where
  errno : Int
  list : Option (List RemoteEntry)

/-- `JSON.parse` inside `fetchList`: a non-JSON body throws
`Error("Expected JSON, got HTML (verify/auth issue)")`. -/
def parseJSONBody : RemoteBody → Except String ListResponse
  | .json errno list => .ok ⟨errno, list⟩
  | .notJson _ => .error "Expected JSON, got HTML (verify/auth issue)"

/-- `guessType` from `terabox.ts`: content category from the lower-cased
file name's extension (each `$`-anchored alternation expanded into a
suffix test). -/
def guessType (name : String) : String :=
  let n := jsToLower name
  if ["mp4", "mkv", "avi", "mov", "webm"].any (fun e => jsEndsWith n ("." ++ e)) then
    "video"
  else if ["jpg", "jpeg", "png", "gif", "webp"].any (fun e => jsEndsWith n ("." ++ e)) then
    "image"
  else if ["mp3", "wav", "flac", "aac"].any (fun e => jsEndsWith n ("." ++ e)) then
    "audio"
  else if ["pdf", "doc", "docx", "ppt", "pptx", "xls", "xlsx"].any
      (fun e => jsEndsWith n ("." ++ e)) then
    "document"
  else if ["zip", "rar", "7z", "tar", "gz"].any (fun e => jsEndsWith n ("." ++ e)) then
    "archive"
  else "other"

/-- The `while (bytes >= 1024 && i < units.length - 1)` loop of
`humanSize`, returning the final unit index `i`.  The running value is
`bytes / 1024^i` exactly — division by `1024` is exact on IEEE doubles
in the representable range — so the loop condition `bytes >= 1024` reads
`1024^(i+1) ≤ bytes`.  `fuel` (passed as 4) bounds the at most four
iterations structurally. -/
def humanSizeLoop (bytes : Nat) : Nat → Nat → Nat
  | i, 0 => i
  | i, fuel + 1 =>
    if 1024 ^ (i + 1) ≤ bytes ∧ i < 4 then humanSizeLoop bytes (i + 1) fuel else i

/-- JavaScript `(bytes / p).toFixed(2)` for `p` a power of 1024 (the
quotient is exact in IEEE doubles): round half up to two decimals. -/
def toFixed2Div (bytes p : Nat) : String :=
  let n := (200 * bytes + p) / (2 * p)
  toString (n / 100) ++ "." ++ (if n % 100 < 10 then "0" else "") ++ toString (n % 100)

/-- `humanSize` from `terabox.ts`. -/
def humanSize (bytes : Nat) : String :=
  if bytes = 0 then "0 B"
  else
    let units := ["B", "KB", "MB", "GB", "TB"]
    let i := humanSizeLoop bytes 0 4
    toFixed2Div bytes (1024 ^ i) ++ " " ++ units.getD i ""

/-- `TeraboxFileItem`. -/
structure TeraboxFileItem where
  name : String
  path : String
  isFolder : Bool
  type : String
  size : Nat
  sizeHuman : String
  fsId : String
  md5 : Option String
  dlink : Option String
  thumbs : Option (List (String × String))
deriving DecidableEq, Repr

/-- The `items.map((f) => ...)` body of `fetchAuthenticatedMetadata`. -/
def mapEntry (f : RemoteEntry) : TeraboxFileItem :=
  { name := f.server_filename
    path := f.path
    isFolder := f.isdir == "1"
    type := if f.isdir == "1" then "folder" else guessType f.server_filename
    size := f.size
    sizeHuman := humanSize f.size
    fsId := f.fs_id
    md5 := f.md5
    dlink := f.dlink
    thumbs := f.thumbs }

/-- `TeraboxAuthMetadata`. -/
structure TeraboxAuthMetadataRec where
  success : Bool
  count : Nat
  items : List TeraboxFileItem
  error : Option String
deriving DecidableEq, Repr

/-- The failure shape `{ success: false, count: 0, items: [], error }`. -/
def failMeta (msg : String) : TeraboxAuthMetadataRec :=
  ⟨false, 0, [], some msg⟩

/-- The `RemoteApiError` message for a given `errno`. -/
def remoteApiErrorMsg (errno : Int) : String :=
  "Failed to fetch list: errno " ++ toString errno

/-- `fetchAuthenticatedMetadata`: resolve the share reference, fetch the
root listing, fail on non-zero `errno` or missing list, unwrap a single
top-level directory via one further listing call, and map the entries.
A thrown body-parse error from either `fetchList` call lands in the
surrounding `catch` and becomes the error result.  The second component
is the list of listing calls made (`dir` parameter of each, in order). -/
def fetchAuthenticatedMetadataM (shareUrl : String)
    (remote : Option String → RemoteBody) :
    TeraboxAuthMetadataRec × List (Option String) :=
  match extractSurlM shareUrl with
  | none => (failMeta "Invalid TeraBox URL", [])
  | some _surl =>
    match parseJSONBody (remote none) with
    | .error msg => (failMeta msg, [none])
    | .ok rootData =>
      if rootData.errno != 0 || rootData.list.isNone then
        (failMeta (remoteApiErrorMsg rootData.errno), [none])
      else
        let items0 := rootData.list.getD []
        if items0.length == 1 && (items0.headD default).isdir == "1" then
          let d := items0.headD default
          match parseJSONBody (remote (some d.path)) with
          | .error msg => (failMeta msg, [none, some d.path])
          | .ok innerData =>
            let items := match innerData.list with
              | some l => l
              | none => items0
            let output := items.map mapEntry
            (⟨true, output.length, output, none⟩, [none, some d.path])
        else
          let output := items0.map mapEntry
          (⟨true, output.length, output, none⟩, [none])

/-! ## Lemmas about header forwarding -/

/-- A forwarding step for an upstream header whose name differs from
`k` leaves the value at `k` alone. -/
theorem forwardStep_ne (isInit : Bool) (f : Headers) (kv : String × String)
    (k : String) (h : jsToLower kv.1 ≠ k) : forwardStep isInit f kv k = f k := by
  unfold forwardStep
  by_cases hskip : skipHeaders.contains (jsToLower kv.1)
  · simp only [hskip, if_true]
  · rw [Bool.not_eq_true] at hskip
    simp only [hskip, Bool.false_eq_true, if_false]
    by_cases hcr : (isInit && (jsToLower kv.1 == "content-range")) = true
    · simp only [hcr, if_true]
    · rw [Bool.not_eq_true] at hcr
      simp only [hcr, Bool.false_eq_true, if_false]
      exact setHeader_other f kv.1 kv.2 k (Ne.symm h)

/-- When answering the initial range, one forwarding step never writes
`content-range`. -/
theorem forwardStep_initial_cr (f : Headers) (kv : String × String) :
    forwardStep true f kv "content-range" = f "content-range" := by
  by_cases h : jsToLower kv.1 = "content-range"
  · unfold forwardStep
    by_cases hskip : skipHeaders.contains (jsToLower kv.1)
    · simp only [hskip, if_true]
    · rw [Bool.not_eq_true] at hskip
      simp only [hskip, Bool.false_eq_true, if_false, h]
      simp
  · exact forwardStep_ne true f kv _ h

/-- When answering the initial range, the whole forwarding loop never
writes `content-range`. -/
theorem foldl_forwardStep_initial_content_range
    (l : List (String × String)) (f : Headers) :
    (l.foldl (forwardStep true) f) "content-range" = f "content-range" := by
  induction l generalizing f with
  | nil => rfl
  | cons kv rest ih =>
    rw [List.foldl_cons, ih, forwardStep_initial_cr]

/-- With duplicate-free upstream header names and a name `k` that is
not in the skip set, the forwarding loop of a non-initial request
reproduces the upstream value at `k`. -/
theorem foldl_forwardStep_lookup (k : String)
    (hk : skipHeaders.contains k = false)
    (l : List (String × String)) (f : Headers)
    (hnodup : (l.map (fun p => jsToLower p.1)).Nodup) :
    (l.foldl (forwardStep false) f) k =
      match l.find? (fun p => jsToLower p.1 == k) with
      | some p => some p.2
      | none => f k := by
  induction l generalizing f with
  | nil => rfl
  | cons kv rest ih =>
    simp only [List.map_cons, List.nodup_cons] at hnodup
    rw [List.foldl_cons]
    by_cases hkv : jsToLower kv.1 = k
    · have hfind : (kv :: rest).find? (fun p => jsToLower p.1 == k) = some kv := by
        simp [List.find?_cons, hkv]
      rw [hfind]
      have hrest : rest.find? (fun p => jsToLower p.1 == k) = none := by
        rw [List.find?_eq_none]
        intro p hp
        simp only [beq_iff_eq]
        intro hpk
        apply hnodup.1
        rw [hkv, ← hpk]
        exact List.mem_map_of_mem (fun q => jsToLower q.1) hp
      have step : forwardStep false f kv = setHeader f kv.1 kv.2 := by
        unfold forwardStep
        simp only [hkv, hk, Bool.false_and, Bool.false_eq_true, if_false]
      rw [step, ih _ hnodup.2, hrest, ← hkv]
      exact setHeader_same f kv.1 kv.2
    · have hfind : (kv :: rest).find? (fun p => jsToLower p.1 == k) =
          rest.find? (fun p => jsToLower p.1 == k) := by
        simp [List.find?_cons, hkv]
      rw [hfind, ih _ hnodup.2]
      have step : forwardStep false f kv k = f k := forwardStep_ne false f kv k hkv
      cases hfr : rest.find? (fun p => jsToLower p.1 == k) <;> simp [hfr, step]

/-- The fixed streaming/CORS headers set after forwarding do not touch
`content-range`. -/
theorem fixed_headers_content_range (hs : Headers) :
    (setHeader (setHeader (setHeader (setHeader (setHeader (setHeader hs
      "Content-Disposition" "inline") "Accept-Ranges" "bytes") "Connection" "close")
      "Access-Control-Allow-Origin" "*") "Access-Control-Allow-Headers" "Range")
      "Access-Control-Expose-Headers" "Content-Range, Content-Length, Accept-Ranges")
      "content-range" = hs "content-range" := by
  rw [setHeader_other _ _ _ _ (by decide), setHeader_other _ _ _ _ (by decide),
    setHeader_other _ _ _ _ (by decide), setHeader_other _ _ _ _ (by decide),
    setHeader_other _ _ _ _ (by decide), setHeader_other _ _ _ _ (by decide)]

/-- Local status code of a streamed result. -/
def streamedStatus : StreamResult → Option Nat
  | .streamed s _ => some s
  | .failure _ _ _ => none

/-- Header value of a streamed result at (lower-case) name `k`. -/
def streamedHeader (r : StreamResult) (k : String) : Option String :=
  match r with
  | .streamed _ hs => hs k
  | .failure _ _ _ => none

/-! ## Claim theorems -/

/-- **C1 counterexample**: a `Range` header that is present but empty
is another Range value than `bytes=0-`, yet the handler treats it as
falsy (`!range`) and answers 200 with `Content-Range` dropped — not 206
with `Content-Range` forwarded as the claim asserts, even though the
upstream answered 206 with one. -/
theorem stream_status_rewrite_counterexample :
    (some "" : Option String) ≠ none ∧
    (some "" : Option String) ≠ some "bytes=0-" ∧
    streamedStatus (streamResponse (some "") 206
      [("Content-Range", "bytes 0-4999/5000")]) = some 200 ∧
    streamedStatus (streamResponse (some "") 206
      [("Content-Range", "bytes 0-4999/5000")]) ≠ some 206 ∧
    streamedHeader (streamResponse (some "") 206
      [("Content-Range", "bytes 0-4999/5000")]) "content-range" = none := by
  decide

/-- **C1 amended**: for every stream request whose upstream fetch
succeeds, an inbound request whose `Range` header is falsy — absent or
present with an empty value — or exactly `bytes=0-` gets local status
200 and no `Content-Range` header (even if upstream answered 206 with
one); any other, non-empty `Range` value gets local status 206 with the
upstream `Content-Range` forwarded unchanged. -/
theorem stream_status_rewrite
    (range : Option String) (upStatus : Nat) (upHeaders : List (String × String))
    (hok : responseOk upStatus = true ∨ upStatus = 206)
    (hnodup : (upHeaders.map (fun p => jsToLower p.1)).Nodup) :
    ((range = none ∨ range = some "" ∨ range = some "bytes=0-") →
      streamedStatus (streamResponse range upStatus upHeaders) = some 200 ∧
      streamedHeader (streamResponse range upStatus upHeaders) "content-range" = none) ∧
    ((range ≠ none ∧ range ≠ some "" ∧ range ≠ some "bytes=0-") →
      streamedStatus (streamResponse range upStatus upHeaders) = some 206 ∧
      streamedHeader (streamResponse range upStatus upHeaders) "content-range" =
        lookupHeader upHeaders "content-range") := by
  have hguard : (!responseOk upStatus && upStatus != 206) = false := by
    rcases hok with h | h
    · rw [h]; rfl
    · subst h; rfl
  have hmain : ∀ b : Bool, isInitialRange range = b →
      streamResponse range upStatus upHeaders =
        .streamed (if b then 200 else 206)
          (setHeader (setHeader (setHeader (setHeader (setHeader (setHeader
            (upHeaders.foldl (forwardStep b) noHeaders)
            "Content-Disposition" "inline") "Accept-Ranges" "bytes")
            "Connection" "close") "Access-Control-Allow-Origin" "*")
            "Access-Control-Allow-Headers" "Range")
            "Access-Control-Expose-Headers"
            "Content-Range, Content-Length, Accept-Ranges") := by
    intro b hb
    unfold streamResponse
    rw [hguard, ← hb]
    rfl
  constructor
  · intro hr
    have hinit : isInitialRange range = true := by
      rcases hr with rfl | rfl | rfl <;> decide
    rw [hmain true hinit]
    refine ⟨rfl, ?_⟩
    simp only [streamedHeader, if_true]
    rw [fixed_headers_content_range, foldl_forwardStep_initial_content_range]
    rfl
  · intro hr
    have hinit : isInitialRange range = false := by
      rcases range with _ | r
      · exact absurd rfl hr.1
      · have hne1 : r ≠ "" := fun h => hr.2.1 (by rw [h])
        have hne2 : r ≠ "bytes=0-" := fun h => hr.2.2 (by rw [h])
        simp [isInitialRange, jsFalsy, hne1, hne2]
    rw [hmain false hinit]
    refine ⟨rfl, ?_⟩
    simp only [streamedHeader, if_false]
    rw [fixed_headers_content_range,
      foldl_forwardStep_lookup "content-range" (by decide) upHeaders noHeaders hnodup]
    cases hfr : upHeaders.find? (fun p => jsToLower p.1 == "content-range") <;>
      simp [lookupHeader, hfr, noHeaders]

/-- **C1 amended witness**: concrete instance — upstream 206 with a
`Content-Range`; the probe `bytes=0-` yields 200 without it, the
sub-range `bytes=1000-2000` yields 206 with it. -/
theorem stream_status_rewrite_witness :
    (responseOk 206 = true ∨ (206 : Nat) = 206) ∧
    ([("Content-Range", "bytes 0-4999/5000"), ("Content-Type", "video/mp4")].map
      (fun p => jsToLower p.1)).Nodup ∧
    (((some "bytes=0-" : Option String) = none ∨
        (some "bytes=0-" : Option String) = some "" ∨
        (some "bytes=0-" : Option String) = some "bytes=0-") →
      streamedStatus (streamResponse (some "bytes=0-") 206
        [("Content-Range", "bytes 0-4999/5000"), ("Content-Type", "video/mp4")]) =
          some 200 ∧
      streamedHeader (streamResponse (some "bytes=0-") 206
        [("Content-Range", "bytes 0-4999/5000"), ("Content-Type", "video/mp4")])
        "content-range" = none) ∧
    (((some "bytes=1000-2000" : Option String) ≠ none ∧
        (some "bytes=1000-2000" : Option String) ≠ some "" ∧
        (some "bytes=1000-2000" : Option String) ≠ some "bytes=0-") →
      streamedStatus (streamResponse (some "bytes=1000-2000") 206
        [("Content-Range", "bytes 0-4999/5000"), ("Content-Type", "video/mp4")]) =
          some 206 ∧
      streamedHeader (streamResponse (some "bytes=1000-2000") 206
        [("Content-Range", "bytes 0-4999/5000"), ("Content-Type", "video/mp4")])
        "content-range" =
        lookupHeader [("Content-Range", "bytes 0-4999/5000"),
          ("Content-Type", "video/mp4")] "content-range") :=
  ⟨Or.inr rfl, by decide,
    (stream_status_rewrite (some "bytes=0-") 206 _ (Or.inr rfl) (by decide)).1,
    (stream_status_rewrite (some "bytes=1000-2000") 206 _ (Or.inr rfl) (by decide)).2⟩

/-- **C5**: a stream request whose upstream status is neither 2xx nor
206 yields the failure result with the upstream status; the `expired`
classification (`LinkExpired`) holds exactly for 401/403 — so a 403 is
never surfaced generically and a 500 is never surfaced as expired. -/
theorem stream_failure_classification
    (range : Option String) (upStatus : Nat) (upHeaders : List (String × String))
    (hfail : responseOk upStatus = false) (h206 : upStatus ≠ 206) :
    ∃ e m, streamResponse range upStatus upHeaders = .failure upStatus e m ∧
      (e = true ↔ (upStatus = 401 ∨ upStatus = 403)) := by
  have hguard : (!responseOk upStatus && upStatus != 206) = true := by
    rw [hfail]
    simp [h206]
  refine ⟨upStatus == 401 || upStatus == 403,
    if (upStatus == 401 || upStatus == 403) then
      "The download link has expired. Run Auth Fetch again to get fresh links."
    else "Could not stream file.", ?_, ?_⟩
  · unfold streamResponse
    rw [hguard]
    rfl
  · simp

/-- **C5 witness**: upstream 403 is classified as expired
(`LinkExpired`). -/
theorem stream_failure_classification_witness :
    responseOk 403 = false ∧ (403 : Nat) ≠ 206 ∧
    (∃ e m, streamResponse none 403 [] = .failure 403 e m ∧
      (e = true ↔ ((403 : Nat) = 401 ∨ (403 : Nat) = 403))) :=
  ⟨by decide, by decide, stream_failure_classification none 403 [] (by decide) (by decide)⟩

/-! ## Lemmas about the token store -/

theorem invalidate_append (l1 l2 : List AuthTokenRow) :
    invalidateAuthTokens (l1 ++ l2) =
      invalidateAuthTokens l1 ++ invalidateAuthTokens l2 := by
  simp [invalidateAuthTokens]

/-- After demotion, no row is active. -/
theorem activeRows_invalidate (rows : List AuthTokenRow) :
    activeRows (invalidateAuthTokens rows) = [] := by
  induction rows with
  | nil => rfl
  | cons t rest ih =>
    by_cases h : t.status = "active" <;>
      simpa [invalidateAuthTokens, activeRows, h] using ih

theorem activeRows_append (l1 l2 : List AuthTokenRow) :
    activeRows (l1 ++ l2) = activeRows l1 ++ activeRows l2 := by
  simp [activeRows, List.filter_append]

/-- Demotion preserves row ids. -/
theorem mem_invalidate_id (rows : List AuthTokenRow) (t : AuthTokenRow)
    (ht : t ∈ invalidateAuthTokens rows) : ∃ t0 ∈ rows, t.id = t0.id := by
  rcases List.mem_map.mp ht with ⟨a, ha, rfl⟩
  exact ⟨a, ha, by by_cases h : a.status = "active" <;> simp [h]⟩

/-- Demoting rows none of which has id `x` leaves nothing with id `x`. -/
theorem filter_id_invalidate (rows : List AuthTokenRow) (x : String)
    (h : ∀ t ∈ rows, t.id ≠ x) :
    (invalidateAuthTokens rows).filter (fun t => t.id = x) = [] := by
  induction rows with
  | nil => rfl
  | cons t rest ih =>
    have ht : t.id ≠ x := h t (List.mem_cons_self _ _)
    have hrest : ∀ t0 ∈ rest, t0.id ≠ x := fun t0 ht0 => h t0 (List.mem_cons_of_mem _ ht0)
    by_cases hs : t.status = "active" <;>
      simp [invalidateAuthTokens, hs, ht, ih hrest] <;>
      simpa [invalidateAuthTokens] using ih hrest

/-- **C2**: after `save(tokenA)` then `save(tokenB)` (fresh ids), exactly
one row is active — the one inserted for `tokenB` — and `tokenA`'s row
has status `expired`: `save` first demotes all active tokens and then
inserts the new one as active. -/
theorem save_twice_single_active
    (rows : List AuthTokenRow) (idA idB : String) (a b : AuthDataRec) (t1 t2 : Nat)
    (hA : ∀ t ∈ rows, t.id ≠ idA) (hAB : idB ≠ idA) :
    activeRows (saveAuthToken (saveAuthToken rows idA a t1) idB b t2) =
      [{ id := idB, provider := b.provider, jsToken := b.jsToken,
         cookies := b.cookiesJson, status := "active",
         capturedAt := b.capturedAt, expiresAt := none, lastUsedAt := t2 }] ∧
    ((saveAuthToken (saveAuthToken rows idA a t1) idB b t2).filter
        (fun t => t.id = idA)).map (fun t => t.status) = ["expired"] := by
  have hinv2 : ∀ t ∈ invalidateAuthTokens rows, t.id ≠ idA := by
    intro t ht
    rcases mem_invalidate_id rows t ht with ⟨t0, ht0, hid⟩
    rw [hid]
    exact hA t0 ht0
  have hunf : saveAuthToken (saveAuthToken rows idA a t1) idB b t2 =
      invalidateAuthTokens (invalidateAuthTokens rows ++
        [{ id := idA, provider := a.provider, jsToken := a.jsToken,
           cookies := a.cookiesJson, status := "active",
           capturedAt := a.capturedAt, expiresAt := none, lastUsedAt := t1 }]) ++
        [{ id := idB, provider := b.provider, jsToken := b.jsToken,
           cookies := b.cookiesJson, status := "active",
           capturedAt := b.capturedAt, expiresAt := none, lastUsedAt := t2 }] := rfl
  constructor
  · rw [hunf, invalidate_append, activeRows_append, activeRows_append,
      activeRows_invalidate, activeRows_invalidate]
    simp [activeRows]
  · rw [hunf, invalidate_append, List.filter_append, List.filter_append,
      filter_id_invalidate _ idA hinv2]
    simp [invalidateAuthTokens, hAB]

/-- **C2 witness**: concrete double save into an empty store. -/
theorem save_twice_single_active_witness :
    (∀ t ∈ ([] : List AuthTokenRow), t.id ≠ "a") ∧ ("b" : String) ≠ "a" ∧
    (activeRows (saveAuthToken (saveAuthToken [] "a" ⟨"terabox", "tokA", "[]", 0⟩ 0)
        "b" ⟨"terabox", "tokB", "[]", 1⟩ 1) =
      [{ id := "b", provider := "terabox", jsToken := "tokB",
         cookies := "[]", status := "active",
         capturedAt := 1, expiresAt := none, lastUsedAt := 1 }] ∧
    ((saveAuthToken (saveAuthToken [] "a" ⟨"terabox", "tokA", "[]", 0⟩ 0)
        "b" ⟨"terabox", "tokB", "[]", 1⟩ 1).filter
        (fun t => t.id = "a")).map (fun t => t.status) = ["expired"]) :=
  ⟨by simp, by decide,
    save_twice_single_active [] "a" "b" ⟨"terabox", "tokA", "[]", 0⟩
      ⟨"terabox", "tokB", "[]", 1⟩ 0 1 (by simp) (by decide)⟩

/-- **C8**: `start()` is idempotent while a capture is pending: when the
current session's status is `waiting_for_login`, `start()` returns the
state unchanged and that very session (hence the identical `sessionId`),
and launches no second browser. -/
theorem start_idempotent_while_waiting
    (st : CaptureState) (s : AuthSessionSt) (newId : String)
    (hs : st.activeAuthSession = some s)
    (hw : s.status = .waiting_for_login) :
    startAuthSessionM st newId = (st, .existing s, false) := by
  unfold startAuthSessionM
  rw [hs]
  simp [hw]

/-- **C8 witness**: concrete waiting state. -/
theorem start_idempotent_while_waiting_witness :
    ({ activeAuthSession := some ⟨"auth_1", .waiting_for_login, "m", false⟩,
       captured := false, browserOpen := true } : CaptureState).activeAuthSession =
      some ⟨"auth_1", .waiting_for_login, "m", false⟩ ∧
    (AuthSessionSt.mk "auth_1" .waiting_for_login "m" false).status = .waiting_for_login ∧
    startAuthSessionM
      { activeAuthSession := some ⟨"auth_1", .waiting_for_login, "m", false⟩,
        captured := false, browserOpen := true } "auth_2" =
      ({ activeAuthSession := some ⟨"auth_1", .waiting_for_login, "m", false⟩,
         captured := false, browserOpen := true },
       .existing ⟨"auth_1", .waiting_for_login, "m", false⟩, false) :=
  ⟨rfl, rfl,
    start_idempotent_while_waiting
      { activeAuthSession := some ⟨"auth_1", .waiting_for_login, "m", false⟩,
        captured := false, browserOpen := true }
      ⟨"auth_1", .waiting_for_login, "m", false⟩ "auth_2" rfl rfl⟩

/-- **C3** (code evaluation at the failing interleaving): starting from
no session, one `start()` invocation installs the `pending` session and
launches the browser; a qualifying request observed while `page.goto`
is still pending sets status `success` (with `authData`) and arms the
latch; the code that runs when the `goto` resolves then overwrites the
`success` status with `waiting_for_login` — with the latch still set,
so the session can never again reach `success`.  This contradicts the
claim that `success` is terminal within one `start()` invocation. -/
theorem capture_success_overwritten_by_goto :
    (observerStep ((startAuthSessionM ⟨none, false, false⟩ "auth_1").1) "auth_1"
        true 30).activeAuthSession.map (fun s => s.status) = some .success ∧
    (observerStep ((startAuthSessionM ⟨none, false, false⟩ "auth_1").1) "auth_1"
        true 30).captured = true ∧
    (gotoCompleteStep (observerStep ((startAuthSessionM ⟨none, false, false⟩ "auth_1").1)
        "auth_1" true 30) "auth_1").activeAuthSession.map (fun s => s.status) =
      some .waiting_for_login ∧
    (gotoCompleteStep (observerStep ((startAuthSessionM ⟨none, false, false⟩ "auth_1").1)
        "auth_1" true 30) "auth_1").activeAuthSession.map (fun s => s.hasAuthData) =
      some false ∧
    (gotoCompleteStep (observerStep ((startAuthSessionM ⟨none, false, false⟩ "auth_1").1)
        "auth_1" true 30) "auth_1").captured = true := by
  decide

/-- **C9 counterexample**: for the file name `"a b.mp4"` the download
handler's `Content-Disposition` puts the *percent-encoded* name
(`a%20b.mp4`) into the plain `filename` parameter as well — the header
differs from the claimed form with an unencoded plain parameter. -/
theorem download_disposition_counterexample :
    ∃ hs, downloadResponse "a b.mp4" 200 none none = .streamed hs ∧
      hs "content-disposition" =
        some "attachment; filename=\"a%20b.mp4\"; filename*=UTF-8\x27\x27a%20b.mp4" ∧
      hs "content-disposition" ≠
        some "attachment; filename=\"a b.mp4\"; filename*=UTF-8\x27\x27a%20b.mp4" := by
  refine ⟨_, rfl, by decide, by decide⟩

/-- **C9 amended**: for every successful download, `Content-Disposition`
is `attachment` and carries the file's name twice — both times
percent-encoded with `encodeURIComponent`: once as the quoted `filename`
parameter and once as the extended `filename*` parameter (the two
values coincide, and equal the raw name only when percent-encoding
leaves it unchanged). -/
theorem download_disposition_encoded
    (fileName : String) (upStatus : Nat) (ct cl : Option String)
    (hok : responseOk upStatus = true) :
    ∃ hs, downloadResponse fileName upStatus ct cl = .streamed hs ∧
      hs "content-disposition" =
        some ("attachment; filename=\"" ++ encodeURIComponent fileName ++
          "\"; filename*=UTF-8\x27\x27" ++ encodeURIComponent fileName) := by
  unfold downloadResponse
  rw [hok]
  cases cl with
  | none =>
    refine ⟨_, rfl, ?_⟩
    dsimp only
    rw [setHeader_other _ "Content-Type" _ _ (by decide)]
    exact setHeader_same noHeaders "Content-Disposition" _
  | some c =>
    refine ⟨_, rfl, ?_⟩
    dsimp only
    rw [setHeader_other _ "Content-Length" _ _ (by decide),
      setHeader_other _ "Content-Type" _ _ (by decide)]
    exact setHeader_same noHeaders "Content-Disposition" _

/-- **C9 amended witness**: concrete successful download. -/
theorem download_disposition_encoded_witness :
    responseOk 200 = true ∧
    (∃ hs, downloadResponse "a b.mp4" 200 none none = .streamed hs ∧
      hs "content-disposition" =
        some ("attachment; filename=\"" ++ encodeURIComponent "a b.mp4" ++
          "\"; filename*=UTF-8\x27\x27" ++ encodeURIComponent "a b.mp4")) :=
  ⟨by decide, download_disposition_encoded "a b.mp4" 200 none none (by decide)⟩

/-- The `UnexpectedResponse` message differs from every `RemoteApiError`
message (their first characters differ). -/
theorem expected_ne_failed_prefix (t : String) :
    "Expected JSON, got HTML (verify/auth issue)" ≠
      "Failed to fetch list: errno " ++ t := by
  obtain ⟨l⟩ := t
  intro h
  have h2 : ("Expected JSON, got HTML (verify/auth issue)" : String).data.head? =
      ("Failed to fetch list: errno " ++ String.mk l : String).data.head? := by rw [h]
  rw [show ("Failed to fetch list: errno " ++ String.mk l : String).data.head? =
    some 'F' from rfl] at h2
  exact absurd h2 (by decide)

/-- **C4**: a remote listing whose body is not parseable as JSON yields
the `UnexpectedResponse` failure (`success = false` with the thrown
parse-error message caught at the component boundary and returned as a
typed result), and this failure is distinguishable from the
`RemoteApiError` failure produced when a parsed body carries a non-zero
remote status code. -/
theorem fetchAuth_unexpected_vs_remote_error
    (shareUrl : String) (s raw : String)
    (remote remote2 : Option String → RemoteBody)
    (errno : Int) (l : Option (List RemoteEntry))
    (hsurl : extractSurlM shareUrl = some s)
    (hbody : remote none = .notJson raw)
    (hne : errno ≠ 0)
    (hbody2 : remote2 none = .json errno l) :
    ((fetchAuthenticatedMetadataM shareUrl remote).1.success = false ∧
      (fetchAuthenticatedMetadataM shareUrl remote).1.error =
        some "Expected JSON, got HTML (verify/auth issue)") ∧
    ((fetchAuthenticatedMetadataM shareUrl remote2).1.success = false ∧
      (fetchAuthenticatedMetadataM shareUrl remote2).1.error =
        some (remoteApiErrorMsg errno)) ∧
    (some "Expected JSON, got HTML (verify/auth issue)" : Option String) ≠
      some (remoteApiErrorMsg errno) := by
  refine ⟨?_, ?_, ?_⟩
  · simp [fetchAuthenticatedMetadataM, hsurl, hbody, parseJSONBody, failMeta]
  · simp [fetchAuthenticatedMetadataM, hsurl, hbody2, parseJSONBody, failMeta, hne]
  · simp only [ne_eq, Option.some.injEq]
    exact expected_ne_failed_prefix (toString errno)

/-- **C4 witness**: an HTML body versus an `errno = -6` body. -/
theorem fetchAuth_unexpected_vs_remote_error_witness :
    extractSurlM "https://host/s/1abc" = some "abc" ∧
    ((fun _ : Option String => RemoteBody.notJson "<html>login</html>") none =
      .notJson "<html>login</html>") ∧
    ((-6 : Int) ≠ 0) ∧
    ((fun _ : Option String =>
        RemoteBody.json (-6) (none : Option (List RemoteEntry))) none =
      .json (-6) none) ∧
    (((fetchAuthenticatedMetadataM "https://host/s/1abc"
        (fun _ => RemoteBody.notJson "<html>login</html>")).1.success = false ∧
      (fetchAuthenticatedMetadataM "https://host/s/1abc"
        (fun _ => RemoteBody.notJson "<html>login</html>")).1.error =
        some "Expected JSON, got HTML (verify/auth issue)") ∧
    ((fetchAuthenticatedMetadataM "https://host/s/1abc"
        (fun _ => RemoteBody.json (-6) none)).1.success = false ∧
      (fetchAuthenticatedMetadataM "https://host/s/1abc"
        (fun _ => RemoteBody.json (-6) none)).1.error =
        some (remoteApiErrorMsg (-6))) ∧
    (some "Expected JSON, got HTML (verify/auth issue)" : Option String) ≠
      some (remoteApiErrorMsg (-6))) :=
  ⟨by decide, rfl, by decide, rfl,
    fetchAuth_unexpected_vs_remote_error "https://host/s/1abc" "abc"
      "<html>login</html>" (fun _ => RemoteBody.notJson "<html>login</html>")
      (fun _ => RemoteBody.json (-6) none) (-6) none
      (by decide) rfl (by decide) rfl⟩

/-- Every run of `fetchAuthenticatedMetadata` issues at most two listing
calls — the unwrap never recurses deeper than one level. -/
theorem fetchAuth_calls_le_two (shareUrl : String)
    (remote : Option String → RemoteBody) :
    (fetchAuthenticatedMetadataM shareUrl remote).2.length ≤ 2 := by
  unfold fetchAuthenticatedMetadataM
  cases hs : extractSurlM shareUrl with
  | none => simp
  | some s =>
    cases hr : parseJSONBody (remote none) with
    | error msg => simp
    | ok rootData =>
      by_cases hcond : (rootData.errno != 0 || rootData.list.isNone) = true
      · simp [hcond]
      · rw [Bool.not_eq_true] at hcond
        simp only [hcond, Bool.false_eq_true, if_false]
        by_cases hsingle : (((rootData.list.getD []).length == 1) &&
            ((rootData.list.getD []).headD default).isdir == "1") = true
        · simp only [hsingle, if_true]
          cases hi : parseJSONBody (remote (some ((rootData.list.getD []).headD
            default).path)) <;> simp
        · rw [Bool.not_eq_true] at hsingle
          have hsingle' : ¬((rootData.list.getD []).length = 1 ∧
              ((rootData.list.getD []).head?.getD default).isdir = "1") := by
            simpa [List.headD_eq_head?] using hsingle
          simp [hsingle']

/-- **C6**: when the top-level authenticated listing is a single
directory entry, the result's item set is the *inner* directory's
listing (obtained by exactly one further listing call scoped to the
directory's path — the call log is `[root, dir]`), not the single
wrapper entry; and no run ever makes more than two listing calls, so
the unwrap never recurses deeper. -/
theorem fetchAuth_unwrap_single_dir
    (shareUrl : String) (remote : Option String → RemoteBody)
    (s : String) (d : RemoteEntry) (e2 : Int) (inner : List RemoteEntry)
    (hsurl : extractSurlM shareUrl = some s)
    (hroot : remote none = .json 0 (some [d]))
    (hdir : d.isdir = "1")
    (hinner : remote (some d.path) = .json e2 (some inner)) :
    (fetchAuthenticatedMetadataM shareUrl remote).1.success = true ∧
    (fetchAuthenticatedMetadataM shareUrl remote).1.items = inner.map mapEntry ∧
    (fetchAuthenticatedMetadataM shareUrl remote).2 = [none, some d.path] ∧
    (∀ (u : String) (r : Option String → RemoteBody),
      (fetchAuthenticatedMetadataM u r).2.length ≤ 2) := by
  refine ⟨?_, ?_, ?_, fun u r => fetchAuth_calls_le_two u r⟩ <;>
    simp [fetchAuthenticatedMetadataM, hsurl, hroot, hinner, parseJSONBody, hdir]

/-- **C6 witness**: a single wrapper directory `/wrap` whose inner
listing holds one file. -/
theorem fetchAuth_unwrap_single_dir_witness :
    extractSurlM "https://host/s/1abc" = some "abc" ∧
    ((fun dir : Option String =>
        match dir with
        | none => RemoteBody.json 0 (some [⟨"wrap", "/wrap", "1", 0, "fs1", none, none, none⟩])
        | some _ => RemoteBody.json 0
            (some [⟨"movie.mp4", "/wrap/movie.mp4", "0", 1536, "fs2", none, some "dl", none⟩]))
      none = .json 0 (some [⟨"wrap", "/wrap", "1", 0, "fs1", none, none, none⟩])) ∧
    (("1" : String) = "1") ∧
    ((fun dir : Option String =>
        match dir with
        | none => RemoteBody.json 0 (some [⟨"wrap", "/wrap", "1", 0, "fs1", none, none, none⟩])
        | some _ => RemoteBody.json 0
            (some [⟨"movie.mp4", "/wrap/movie.mp4", "0", 1536, "fs2", none, some "dl", none⟩]))
      (some "/wrap") = .json 0
        (some [⟨"movie.mp4", "/wrap/movie.mp4", "0", 1536, "fs2", none, some "dl", none⟩])) ∧
    ((fetchAuthenticatedMetadataM "https://host/s/1abc"
        (fun dir =>
          match dir with
          | none => RemoteBody.json 0 (some [⟨"wrap", "/wrap", "1", 0, "fs1", none, none, none⟩])
          | some _ => RemoteBody.json 0
              (some [⟨"movie.mp4", "/wrap/movie.mp4", "0", 1536, "fs2", none, some "dl", none⟩]))).1.success
        = true ∧
      (fetchAuthenticatedMetadataM "https://host/s/1abc"
        (fun dir =>
          match dir with
          | none => RemoteBody.json 0 (some [⟨"wrap", "/wrap", "1", 0, "fs1", none, none, none⟩])
          | some _ => RemoteBody.json 0
              (some [⟨"movie.mp4", "/wrap/movie.mp4", "0", 1536, "fs2", none, some "dl", none⟩]))).1.items
        = [⟨"movie.mp4", "/wrap/movie.mp4", "0", 1536, "fs2", none, some "dl", none⟩].map mapEntry ∧
      (fetchAuthenticatedMetadataM "https://host/s/1abc"
        (fun dir =>
          match dir with
          | none => RemoteBody.json 0 (some [⟨"wrap", "/wrap", "1", 0, "fs1", none, none, none⟩])
          | some _ => RemoteBody.json 0
              (some [⟨"movie.mp4", "/wrap/movie.mp4", "0", 1536, "fs2", none, some "dl", none⟩]))).2
        = [none, some "/wrap"] ∧
      (∀ (u : String) (r : Option String → RemoteBody),
        (fetchAuthenticatedMetadataM u r).2.length ≤ 2)) :=
  ⟨by decide, rfl, rfl, rfl,
    fetchAuth_unwrap_single_dir "https://host/s/1abc"
      (fun dir =>
        match dir with
        | none => RemoteBody.json 0 (some [⟨"wrap", "/wrap", "1", 0, "fs1", none, none, none⟩])
        | some _ => RemoteBody.json 0
            (some [⟨"movie.mp4", "/wrap/movie.mp4", "0", 1536, "fs2", none, some "dl", none⟩]))
      "abc" ⟨"wrap", "/wrap", "1", 0, "fs1", none, none, none⟩ 0
      [⟨"movie.mp4", "/wrap/movie.mp4", "0", 1536, "fs2", none, some "dl", none⟩]
      (by decide) rfl rfl rfl⟩

/-! ## Lemmas about the share reference resolver -/

/-- An anchored match never captures the empty token. -/
theorem shareTokenAt_ne_empty (l : List Char) (m : String)
    (h : shareTokenAt l = some m) : m ≠ "" := by
  rw [shareTokenAt.eq_def] at h
  split at h
  · dsimp only at h
    split at h
    · cases h
    · rename_i hne
      injection h with h'
      subst h'
      intro he
      have hdata : (List.takeWhile isSurlChar _) = ([] : List Char) :=
        congrArg String.data he
      rw [hdata] at hne
      exact hne rfl
  · cases h

/-- A captured share token is never empty (the pattern requires at least
one token character). -/
theorem matchShareSeg_ne_empty (l : List Char) (m : String)
    (h : matchShareSeg l = some m) : m ≠ "" := by
  induction l with
  | nil => cases h
  | cons c rest ih =>
    rw [show matchShareSeg (c :: rest) =
      (match shareTokenAt (c :: rest) with
       | some tok => some tok
       | none => matchShareSeg rest) from rfl] at h
    cases hst : shareTokenAt (c :: rest) with
    | some tok =>
      rw [hst] at h
      injection h with h'
      subst h'
      exact shareTokenAt_ne_empty _ _ hst
    | none =>
      rw [hst] at h
      exact ih h

/-- The part of `extractSurl` that runs after a successful URL parse,
as a function of the parsed `pathname` and `query` only. -/
def extractCore (pathname query : String) : Option String :=
  let surl := searchParamsGet query "surl"
  let surl :=
    if jsFalsy surl then
      match matchShareSeg pathname.data with
      | some m => some m
      | none => surl
    else surl
  if jsFalsy surl then none
  else some (stripLeadingOne (surl.getD ""))

/-- On a parseable URL, `extractSurl` is `extractCore` of the parsed
pathname and query — it reads nothing else of the URL. -/
theorem extractSurlM_parsed (url : String) (u : ParsedURL)
    (h : parseURL url = some u) :
    extractSurlM url = extractCore u.pathname u.query := by
  unfold extractSurlM extractCore
  rw [h]

/-- **C7**: the resolver is a total function on strings — every input
yields either the reference given by the derivation rule (the `surl`
query parameter if present and non-empty, else the token of a `/s/…`
path segment, with a leading `"1"` stripped) or no reference (also on
every parse failure, where `new URL` would throw); in particular
`resolve("https://host/s/1abc123") = "abc123"` and
`resolve("https://host/share?surl=xyz") = "xyz"`. -/
theorem resolver_total_and_examples :
    (∀ url : String, extractSurlM url = none ∨ ∃ r, extractSurlM url = some r) ∧
    (∀ url u, parseURL url = some u →
      (jsFalsy (searchParamsGet u.query "surl") = false →
        extractSurlM url =
          some (stripLeadingOne ((searchParamsGet u.query "surl").getD ""))) ∧
      (jsFalsy (searchParamsGet u.query "surl") = true →
        ∀ m, matchShareSeg u.pathname.data = some m →
          extractSurlM url = some (stripLeadingOne m)) ∧
      (jsFalsy (searchParamsGet u.query "surl") = true →
        matchShareSeg u.pathname.data = none → extractSurlM url = none)) ∧
    (∀ url, parseURL url = none → extractSurlM url = none) ∧
    extractSurlM "https://host/s/1abc123" = some "abc123" ∧
    extractSurlM "https://host/share?surl=xyz" = some "xyz" := by
  refine ⟨?_, ?_, ?_, by decide, by decide⟩
  · intro url
    cases h : extractSurlM url with
    | none => exact Or.inl rfl
    | some r => exact Or.inr ⟨r, rfl⟩
  · intro url u h
    rw [extractSurlM_parsed url u h]
    unfold extractCore
    refine ⟨?_, ?_, ?_⟩
    · intro ha
      simp only [extractCore, ha, Bool.false_eq_true, if_false]
    · intro hf m hm
      have hne : m ≠ "" := matchShareSeg_ne_empty u.pathname.data m hm
      simp only [extractCore, hf, hm, if_true]
      simp [jsFalsy, hne]
    · intro hf hnone
      simp only [extractCore, hf, hnone, if_true]
  · intro url h
    unfold extractSurlM
    rw [h]

/-- **C7 witness**: the query-parameter branch of the rule at
`https://host/share?surl=xyz`. -/
theorem resolver_total_and_examples_witness :
    parseURL "https://host/share?surl=xyz" =
      some ⟨"https", "host", "/share", "surl=xyz"⟩ ∧
    jsFalsy (searchParamsGet "surl=xyz" "surl") = false ∧
    extractSurlM "https://host/share?surl=xyz" =
      some (stripLeadingOne ((searchParamsGet "surl=xyz" "surl").getD "")) :=
  ⟨by decide, by decide,
    (resolver_total_and_examples.2.1 "https://host/share?surl=xyz"
      ⟨"https", "host", "/share", "surl=xyz"⟩ (by decide)).1 (by decide)⟩

/-- **C10**: the resolver never inspects the URL's scheme or host: any
parseable URL with a non-empty `surl` query parameter, or with a
`/s/<token>` path segment (when the parameter is absent or empty),
yields a reference whatever host it names; and two parseable URLs with
the same pathname and query resolve identically regardless of scheme
and host. -/
theorem resolver_host_independent :
    (∀ url u v, parseURL url = some u →
      searchParamsGet u.query "surl" = some v → v ≠ "" →
      ∃ r, extractSurlM url = some r) ∧
    (∀ url u m, parseURL url = some u →
      jsFalsy (searchParamsGet u.query "surl") = true →
      matchShareSeg u.pathname.data = some m →
      ∃ r, extractSurlM url = some r) ∧
    (∀ url1 url2 u1 u2, parseURL url1 = some u1 → parseURL url2 = some u2 →
      u1.pathname = u2.pathname → u1.query = u2.query →
      extractSurlM url1 = extractSurlM url2) := by
  refine ⟨?_, ?_, ?_⟩
  · intro url u v h hv hne
    rw [extractSurlM_parsed url u h]
    refine ⟨stripLeadingOne v, ?_⟩
    have hfal : jsFalsy (some v) = false := by simp [jsFalsy, hne]
    simp only [extractCore, hv, hfal, Bool.false_eq_true, if_false]
    simp
  · intro url u m h hf hm
    rw [extractSurlM_parsed url u h]
    have hne : m ≠ "" := matchShareSeg_ne_empty u.pathname.data m hm
    refine ⟨stripLeadingOne m, ?_⟩
    have hfal : jsFalsy (some m) = false := by simp [jsFalsy, hne]
    simp only [extractCore, hf, hm, if_true, hfal, Bool.false_eq_true, if_false]
    simp
  · intro url1 url2 u1 u2 h1 h2 hp hq
    rw [extractSurlM_parsed url1 u1 h1, extractSurlM_parsed url2 u2 h2, hp, hq]

/-- **C10 witness**: a `surl` parameter on a host that is not the
remote storage host still resolves; and an `/s/`-path URL resolves the
same on the storage host and on an unrelated `ftp` host. -/
theorem resolver_host_independent_witness :
    parseURL "http://other.example/x?surl=zz" =
      some ⟨"http", "other.example", "/x", "surl=zz"⟩ ∧
    searchParamsGet "surl=zz" "surl" = some "zz" ∧
    ("zz" : String) ≠ "" ∧
    (∃ r, extractSurlM "http://other.example/x?surl=zz" = some r) ∧
    parseURL "https://www.1024tera.com/s/1abc" =
      some ⟨"https", "www.1024tera.com", "/s/1abc", ""⟩ ∧
    parseURL "ftp://evil.example/s/1abc" =
      some ⟨"ftp", "evil.example", "/s/1abc", ""⟩ ∧
    extractSurlM "https://www.1024tera.com/s/1abc" =
      extractSurlM "ftp://evil.example/s/1abc" :=
  ⟨by decide, by decide, by decide,
    resolver_host_independent.1 "http://other.example/x?surl=zz"
      ⟨"http", "other.example", "/x", "surl=zz"⟩ "zz" (by decide) (by decide) (by decide),
    by decide, by decide,
    resolver_host_independent.2.2 "https://www.1024tera.com/s/1abc"
      "ftp://evil.example/s/1abc"
      ⟨"https", "www.1024tera.com", "/s/1abc", ""⟩
      ⟨"ftp", "evil.example", "/s/1abc", ""⟩
      (by decide) (by decide) rfl rfl⟩

end Kage
